import Mathlib

/-!
Shallow embedding of `ai_controller_fast_action_v0.3.py`, a per-connection
control channel between a Unity game process and a Python AI controller.

The embedding follows the Python source function by function:

* `fmt2` models Python float formatting with `f"{amount:.2f}"` (two decimal
  digits, round half to even); amounts are modelled as rationals.
* `AICommandBuilder` with `left` / `right` / `jump` / `pickup` / `drop` /
  `shoot` / `clear` / `build` models the command builder class; the Python
  `assert` guarding movement amounts is modelled by returning `none`
  (construction failure) instead of an updated builder.
* `SharedState` models the Python dict `shared_state`; a dict may lack keys,
  so every field is an `Option`.  `initSharedState` is the dict literal
  `{"isDead": False, "numActivePlayers": 0}` created in `handle_client`.
* `StateFrame` models the result of `json.loads` on one state line; each
  field is `none` when the key is absent from the JSON object.
* `handle_state` models the function of the same name.
* `request_image` models the function of the same name; the socket is
  modelled by the script of values successive `conn.recv` calls return.
* `processLine` / `processParts` / `processBuffer` / `recvIteration` model
  one pass of the body of `recv_loop`; `sendIteration` models one pass of
  the body of `send_loop`; `sessionInit` models the per-session
  initialisation in `handle_client` together with the fact that
  `next_command` is a module-level global that `handle_client` never resets.
-/

namespace AIController

/-- Round `100 * q` to the nearest integer, ties to even — the rounding
Python `format` applies for `.2f`.  Computed directly on the numerator and
denominator with integer arithmetic: with `a = 100 * q.num`,
`b = q.den > 0`, the floor is `a.fdiv b`, the fractional part is `r / b`
with `r = a - floor * b ∈ [0, b)`, and the tie test compares `2 * r`
with `b`. -/
def roundHalfEven100 (q : ℚ) : ℤ :=
  let a : ℤ := 100 * q.num
  let b : ℤ := (q.den : ℤ)
  let f := Int.fdiv a b
  let r := a - f * b
  if 2 * r < b then f
  else if b < 2 * r then f + 1
  else if f % 2 = 0 then f else f + 1

/-- Render a natural number below 100 as exactly two digits. -/
def twoDigits (m : ℕ) : String :=
  if m < 10 then "0" ++ toString m else toString m

/-- Model of the Python f-string `f"{amount:.2f}"` for the amounts the
builder accepts (validated to lie in `[0, 1]`, hence nonnegative). -/
def fmt2 (q : ℚ) : String :=
  let n := (roundHalfEven100 q).toNat
  toString (n / 100) ++ "." ++ twoDigits (n % 100)

/-- The command builder class `AICommandBuilder`; its single attribute is
the list `self._commands` of already-built tokens. -/
structure AICommandBuilder where
  commands : List String
deriving DecidableEq, Repr

namespace AICommandBuilder

/-- The freshly constructed builder: `AICommandBuilder()` with
`self._commands = []`. -/
def new : AICommandBuilder := ⟨[]⟩

/-- Method `left`: `assert 0.0 <= amount <= 1.0`, then append
`f"LEFT:{amount:.2f}"`.  A failing assert is modelled as `none`; the
builder is not modified in that case. -/
def left (b : AICommandBuilder) (amount : ℚ) : Option AICommandBuilder :=
  if 0 ≤ amount ∧ amount ≤ 1 then
    some ⟨b.commands ++ ["LEFT:" ++ fmt2 amount]⟩
  else none

/-- Method `right`, analogous to `left`. -/
def right (b : AICommandBuilder) (amount : ℚ) : Option AICommandBuilder :=
  if 0 ≤ amount ∧ amount ≤ 1 then
    some ⟨b.commands ++ ["RIGHT:" ++ fmt2 amount]⟩
  else none

/-- Method `jump`, analogous to `left`. -/
def jump (b : AICommandBuilder) (amount : ℚ) : Option AICommandBuilder :=
  if 0 ≤ amount ∧ amount ≤ 1 then
    some ⟨b.commands ++ ["JUMP:" ++ fmt2 amount]⟩
  else none

/-- Method `pickup`: append the parameterless token `PICKUP`. -/
def pickup (b : AICommandBuilder) : AICommandBuilder :=
  ⟨b.commands ++ ["PICKUP"]⟩

/-- Method `drop`: append the parameterless token `DROP`. -/
def drop (b : AICommandBuilder) : AICommandBuilder :=
  ⟨b.commands ++ ["DROP"]⟩

/-- Method `shoot`: append the parameterless token `SHOOT`. -/
def shoot (b : AICommandBuilder) : AICommandBuilder :=
  ⟨b.commands ++ ["SHOOT"]⟩

/-- Method `clear`: `self._commands.clear()`. -/
def clear (_b : AICommandBuilder) : AICommandBuilder := ⟨[]⟩

/-- Join a list of strings with `";"` between consecutive elements:
Python `";".join(...)`. -/
def joinSemi : List String → String
  | [] => ""
  | [x] => x
  | x :: xs => x ++ ";" ++ joinSemi xs

/-- Method `build`: `";".join(self._commands)`. -/
def build (b : AICommandBuilder) : String :=
  joinSemi b.commands

end AICommandBuilder

/-- The command frame actually transmitted: every caller of `build` in the
source appends a newline (`builder.build() + "\n"`) before `sendall`. -/
def commandFrame (b : AICommandBuilder) : String :=
  b.build ++ "\n"

/-- The Python dict `shared_state`.  A dict key may be absent, so each of
the five documented fields is an `Option`; `none` means the key is not in
the dict. -/
structure SharedState where
  isDead : Option Bool
  numActivePlayers : Option Int
  hasWeapon : Option Bool
  numWeapons : Option Int
  gameEnded : Option Bool
deriving DecidableEq, Repr

/-- The dict literal created at the top of `handle_client`:
`{"isDead": False, "numActivePlayers": 0}` — only those two keys are
present; `hasWeapon`, `numWeapons` and `gameEnded` are absent. -/
def initSharedState : SharedState :=
  { isDead := some false
    numActivePlayers := some 0
    hasWeapon := none
    numWeapons := none
    gameEnded := none }

/-- A successfully decoded state frame: the outcome of
`json.loads(state_str)` restricted to the keys `handle_state` reads.
A field is `none` when the key is absent from the JSON object. -/
structure StateFrame where
  isDead : Option Bool
  numActivePlayers : Option Int
  hasWeapon : Option Bool
  numWeapons : Option Int
  gameEnded : Option Bool
deriving DecidableEq, Repr

/-- The frame `{}`: every key absent. -/
def StateFrame.empty : StateFrame := ⟨none, none, none, none, none⟩

/-- Function `handle_state` after a successful `json.loads`: under the
lock, every one of the five keys of `shared_state` is assigned
`state_json.get(key, default)`; the returned boolean is the end test
`state_json.get("gameEnded", False) or shared_state["isDead"]`, where
`shared_state["isDead"]` has just been set to
`state_json.get("isDead", False)`. -/
def handle_state (f : StateFrame) (_s : SharedState) : SharedState × Bool :=
  let s' : SharedState :=
    { isDead := some (f.isDead.getD false)
      numActivePlayers := some (f.numActivePlayers.getD 0)
      hasWeapon := some (f.hasWeapon.getD false)
      numWeapons := some (f.numWeapons.getD 0)
      gameEnded := some (f.gameEnded.getD false) }
  (s', f.gameEnded.getD false || (s'.isDead.getD false))

/-- An image, kept abstract as the raw payload bytes handed to
`Image.open` (the image codec is an external library dependency). -/
abbrev Image := List ℕ

/-- What one call of `conn.recv` returns while `request_image` is reading:
either a chunk of bytes (the empty chunk models a closed connection) or a
`socket.timeout` exception. -/
inductive ReadResult where
  | bytes (b : List ℕ)
  | timeout
deriving DecidableEq, Repr

/-- Big-endian interpretation of the four-byte length prefix:
`int.from_bytes(length_bytes, byteorder="big")`. -/
def be32 (bs : List ℕ) : ℕ :=
  bs.foldl (fun acc b => acc * 256 + b) 0

/-- The `while len(data) < img_size` loop of `request_image`: keep calling
`conn.recv(img_size - len(data))` and appending until `img_size` bytes are
collected.  An empty packet (`if not packet`) aborts with `None`, and so
does a `socket.timeout` (caught by the enclosing `except Exception`).
An exhausted read script is a read that never returns, likewise modelled
as failure. -/
def recvImagePayload : List ReadResult → ℕ → List ℕ → Option (List ℕ)
  | [], size, acc => if acc.length < size then none else some acc
  | r :: rest, size, acc =>
    if acc.length < size then
      match r with
      | ReadResult.timeout => none
      | ReadResult.bytes [] => none
      | ReadResult.bytes p => recvImagePayload rest size (acc ++ p)
    else some acc

/-- Function `request_image`: send `GET_IMAGE\n`, read the 4-byte
big-endian size prefix with a single `conn.recv(4)` (which returns at most
4 bytes, so fewer than 4 means an incomplete prefix → `None`), then read
the payload.  Any exception — in particular `socket.timeout` — is caught
by `except Exception` and yields `None`.  On success the payload bytes are
handed to `Image.open`. -/
def request_image (reads : List ReadResult) : Option Image :=
  match reads with
  | [] => none
  | ReadResult.timeout :: _ => none
  | ReadResult.bytes lb :: rest =>
    if lb.length < 4 then none
    else
      let imgSize := be32 (lb.take 4)
      recvImagePayload rest imgSize []

/-- Python `str.isspace` membership for one character: the whitespace
characters `str.strip()` removes. -/
def pyIsSpace (c : Char) : Bool :=
  c = ' ' || c = '\t' || c = '\n' || c = '\r' || c = '\x0b' || c = '\x0c'

/-- Python `line.strip()`: drop whitespace from both ends. -/
def pyStrip (s : String) : String :=
  ⟨(((s.data.dropWhile pyIsSpace).reverse).dropWhile pyIsSpace).reverse⟩

/-- Split a character list at every newline, what the loop
`while "\n" in buffer: line, buffer = buffer.split("\n", 1)` produces:
all entries but the last are the complete lines in order, and the last
entry is the leftover buffer with no newline in it.  The result is never
empty. -/
def splitNL : List Char → List (List Char)
  | [] => [[]]
  | c :: rest =>
    let ls := splitNL rest
    if c = '\n' then [] :: ls
    else
      match ls with
      | [] => [[c]]
      | l :: ls' => (c :: l) :: ls'

/-- The per-tick environment of the Receiver loop body: the outcome of
`json.loads` on a stripped line (`none` models a raised
`json.JSONDecodeError`), the outcome of `request_image` for this tick,
and `ai_image_analyzer`. -/
structure RecvCtx where
  decode : String → Option StateFrame
  imageResult : Option Image
  analyze : Image → String

/-- The mutable state both loops touch: the session-local dict
`shared_state` and event `stop_event`, and the module-level global
`next_command`. -/
structure LoopState where
  shared : SharedState
  stopEvent : Bool
  nextCommand : Option String
deriving DecidableEq, Repr

/-- Outcome of processing one complete line inside `recv_loop`. -/
structure LineOutcome where
  state : LoopState
  imageRequested : Bool
  broke : Bool
deriving DecidableEq, Repr

/-- The body of the inner `while "\n" in buffer` loop of `recv_loop` for
one complete line: strip it; skip it when empty; run `handle_state`,
catching `json.JSONDecodeError` by skipping the line; on a game-end
result set `stop_event` and break; otherwise (the `should_fetch_image`
hook always answers `True`) call `request_image` and, when an image came
back, store `ai_image_analyzer(img)` into the global `next_command`. -/
def processLine (ctx : RecvCtx) (line : String) (st : LoopState) :
    LineOutcome :=
  let stripped := pyStrip line
  if stripped = "" then ⟨st, false, false⟩
  else
    match ctx.decode stripped with
    | none => ⟨st, false, false⟩
    | some f =>
      let r := handle_state f st.shared
      let st1 : LoopState := { st with shared := r.1 }
      if r.2 then ⟨{ st1 with stopEvent := true }, false, true⟩
      else
        match ctx.imageResult with
        | some img => ⟨{ st1 with nextCommand := some (ctx.analyze img) }, true, false⟩
        | none => ⟨st1, true, false⟩

/-- Result of one pass of the outer `recv_loop` body: the leftover
buffer, the state, how many `request_image` calls were made, and whether
the pass left the loop through an uncaught exception (whereupon the
`finally` clause has set `stop_event`). -/
structure IterOutcome where
  buffer : String
  state : LoopState
  imagesRequested : ℕ
  exited : Bool
deriving DecidableEq, Repr

/-- Rejoin split parts with the newlines they were split at: the leftover
buffer after a `break`. -/
def rejoinNL : List (List Char) → List Char
  | [] => []
  | [p] => p
  | p :: ps => p ++ '\n' :: rejoinNL ps

/-- Drain the complete lines of the buffer in order (the inner
`while "\n" in buffer` loop): every part but the last is a complete line
handed to `processLine`; `break` abandons the remaining parts, which are
joined back into the leftover buffer. -/
def processParts (ctx : RecvCtx) : List (List Char) → LoopState → ℕ → IterOutcome
  | [], st, n => ⟨"", st, n, false⟩
  | [last], st, n => ⟨⟨last⟩, st, n, false⟩
  | line :: rest, st, n =>
    let o := processLine ctx ⟨line⟩ st
    let n' := n + (if o.imageRequested then 1 else 0)
    if o.broke then ⟨⟨rejoinNL rest⟩, o.state, n', false⟩
    else processParts ctx rest o.state n'

/-- What one call of `conn.recv(4096)` in `recv_loop` produced:
a `socket.timeout` (caught: `continue`), a data chunk already decoded
with `chunk.decode("ascii", errors="ignore")` — the empty string models
`b""`, a closed connection —, or any other socket exception, which is
not caught inside the loop and unwinds through the `finally` clause. -/
inductive SockEvent where
  | timeout
  | chunk (c : String)
  | err
deriving DecidableEq, Repr

/-- One pass of the outer `while not stop_event.is_set() and not
shutdown` body of `recv_loop`: `socket.timeout` → `continue`; an empty
chunk (`if not chunk`) → `continue`; otherwise append the chunk to the
buffer and drain its complete lines; a non-timeout exception unwinds,
the `finally` sets `stop_event`, and the thread leaves the loop. -/
def recvIteration (ctx : RecvCtx) (ev : SockEvent) (buffer : String)
    (st : LoopState) : IterOutcome :=
  match ev with
  | SockEvent.timeout => ⟨buffer, st, 0, false⟩
  | SockEvent.err => ⟨buffer, { st with stopEvent := true }, 0, true⟩
  | SockEvent.chunk c =>
    if c = "" then ⟨buffer, st, 0, false⟩
    else processParts ctx (splitNL (buffer ++ c).data) st 0

/-- One pass of the body of `send_loop`: if the global `next_command`
holds a value, `sendall` it and clear the slot; a send failure
(`except Exception`) sets `stop_event` and breaks.  `sendOk` tells
whether `conn.sendall` succeeded; the second component is the command
frame that went out on the wire, if any. -/
def sendIteration (sendOk : Bool) (st : LoopState) :
    LoopState × Option String :=
  match st.nextCommand with
  | some cmd =>
    if sendOk then ({ st with nextCommand := none }, some cmd)
    else ({ st with stopEvent := true }, none)
  | none => (st, none)

/-- The loop guard `while not stop_event.is_set() and not shutdown`
shared by both loops. -/
def loopContinues (st : LoopState) (shutdown : Bool) : Bool :=
  !st.stopEvent && !shutdown

/-- The module-level mutable globals that survive from one call of
`handle_client` to the next: `next_command` (and the shutdown flag).
`shared_state` and `stop_event` are locals of `handle_client` and are
created afresh per session. -/
structure GlobalState where
  next_command : Option String
  shutdown : Bool
deriving DecidableEq, Repr

/-- The state the two loops of a new session start from: `handle_client`
creates a fresh `shared_state` dict and a fresh `stop_event`, but
`next_command` is a module global it never resets, so the session starts
with whatever value the previous session left there. -/
def sessionInit (g : GlobalState) : LoopState :=
  { shared := initSharedState
    stopEvent := false
    nextCommand := g.next_command }

/-- The globals a finished session leaves behind for the next one. -/
def sessionGlobals (st : LoopState) (shutdown : Bool) : GlobalState :=
  { next_command := st.nextCommand, shutdown := shutdown }

/-- A concrete image payload, used to evaluate the model on closed runs. -/
def demoImage : Image := [1, 2, 3]

/-- A concrete decision function: always jump with full force, the frame
`test_random_choose_cmd` also produces. -/
def demoAnalyze : Image → String := fun _ => "JUMP:1.00\n"

/-- The state line `{}`. -/
def emptyLine : String := "\x7b\x7d"

/-- The state line `{"gameEnded":true}`. -/
def endLine : String := "\x7b\"gameEnded\":true\x7d"

/-- The frame decoded from `{"gameEnded":true}`. -/
def endedFrame : StateFrame := { StateFrame.empty with gameEnded := some true }

/-- A concrete stand-in for `json.loads` on the two lines above; every
other line is malformed JSON. -/
def demoDecode : String → Option StateFrame := fun s =>
  if s = emptyLine then some StateFrame.empty
  else if s = endLine then some endedFrame
  else none

/-- A concrete Receiver tick in which the image fetch succeeds. -/
def demoCtx : RecvCtx := ⟨demoDecode, some demoImage, demoAnalyze⟩

/-- A concrete Receiver tick in which the image fetch fails. -/
def noImageCtx : RecvCtx := ⟨demoDecode, none, demoAnalyze⟩

/-- A concrete Receiver tick in which every line is malformed JSON. -/
def badCtx : RecvCtx := ⟨fun _ => none, none, demoAnalyze⟩

/-- The loop state of a first session started with empty globals. -/
def st0 : LoopState := sessionInit ⟨none, false⟩

/-- First session, first line: `{}` is processed, an image comes back
and a decision is written into the global `next_command`. -/
def s1a : LineOutcome := processLine demoCtx emptyLine st0

/-- First session, second line: `{"gameEnded":true}` arrives before the
Sender loop ran, so the session terminates with the decision undrained. -/
def s1b : LineOutcome := processLine demoCtx endLine s1a.state

/-- The module globals the first session leaves for the second one. -/
def g1 : GlobalState := sessionGlobals s1b.state false

/-- C1: evaluation of `recv_loop` at the failing input.  When `conn.recv`
returns an empty chunk (the peer closed the connection), the loop body
runs `if not chunk: continue`: the stop signal is NOT set, the state is
unchanged, the thread does not leave the loop, and the loop guard still
holds — contrary to the claim (and to the spec sentence it cites), which
require the stop signal to be set and the loop to exit. -/
theorem recv_empty_chunk_keeps_looping :
    recvIteration demoCtx (SockEvent.chunk "") "" st0 = ⟨"", st0, 0, false⟩
    ∧ st0.stopEvent = false
    ∧ loopContinues (recvIteration demoCtx (SockEvent.chunk "") "" st0).state false = true := by
  decide

/-- C2 counterexample: a command produced during the first session and
left undrained when that session terminates is transmitted by the Sender
loop of the second session, because `next_command` is a module global
that `handle_client` never resets.  The run is concrete: session one
processes `{}` (decision `JUMP:1.00\n` stored), then `{"gameEnded":true}`
(stop, slot still full); session two starts and its first Sender pass
sends the leftover command. -/
theorem command_crosses_sessions :
    s1a.state.nextCommand = some "JUMP:1.00\n"
    ∧ s1b.state.stopEvent = true
    ∧ s1b.state.nextCommand = some "JUMP:1.00\n"
    ∧ (sendIteration true (sessionInit g1)).2 = some "JUMP:1.00\n" := by
  decide

/-- C2 amended: the snapshot and the stop signal are created afresh for
every session, but the pending-command slot is the module global
`next_command`, which survives from one session to the next: whatever
value it holds when a session starts is transmitted by that session's
first successful Sender pass. -/
theorem pending_slot_survives_sessions :
    (∀ g : GlobalState,
      (sessionInit g).shared = initSharedState
      ∧ (sessionInit g).stopEvent = false
      ∧ (sessionInit g).nextCommand = g.next_command)
    ∧ (∀ (g : GlobalState) (cmd : String), g.next_command = some cmd →
      (sendIteration true (sessionInit g)).2 = some cmd) := by
  refine ⟨fun g => ⟨rfl, rfl, rfl⟩, fun g cmd h => ?_⟩
  simp [sendIteration, sessionInit, h]

/-- C2 witness: the amended theorem applied to the concrete globals the
first session of `command_crosses_sessions` leaves behind. -/
theorem pending_slot_survives_sessions_witness :
    (sessionInit ⟨some "JUMP:1.00\n", false⟩).shared = initSharedState
    ∧ (sendIteration true (sessionInit ⟨some "JUMP:1.00\n", false⟩)).2
      = some "JUMP:1.00\n" :=
  ⟨(pending_slot_survives_sessions.1 ⟨some "JUMP:1.00\n", false⟩).1,
   pending_slot_survives_sessions.2 ⟨some "JUMP:1.00\n", false⟩ "JUMP:1.00\n" rfl⟩

/-- C3 counterexample: at session start the dict `shared_state` is
`{"isDead": False, "numActivePlayers": 0}` — it does NOT hold all five
documented fields with their defaults: `hasWeapon`, `numWeapons` and
`gameEnded` are absent. -/
theorem init_snapshot_not_all_defaults :
    ¬ (initSharedState.isDead = some false
      ∧ initSharedState.numActivePlayers = some 0
      ∧ initSharedState.hasWeapon = some false
      ∧ initSharedState.numWeapons = some 0
      ∧ initSharedState.gameEnded = some false) := by
  decide

/-- C3 amended: at session start the snapshot holds only
`isDead = false` and `numActivePlayers = 0`; `hasWeapon`, `numWeapons`
and `gameEnded` are absent until the first state frame is processed —
`handle_state` then assigns all five keys, and a frame missing every
field yields the documented defaults `false`/`0`. -/
theorem init_snapshot_partial :
    initSharedState.isDead = some false
    ∧ initSharedState.numActivePlayers = some 0
    ∧ initSharedState.hasWeapon = none
    ∧ initSharedState.numWeapons = none
    ∧ initSharedState.gameEnded = none
    ∧ (∀ s : SharedState, (handle_state StateFrame.empty s).1
        = ⟨some false, some 0, some false, some 0, some false⟩)
    ∧ (∀ (f : StateFrame) (s : SharedState),
        ((handle_state f s).1.isDead).isSome
        ∧ ((handle_state f s).1.numActivePlayers).isSome
        ∧ ((handle_state f s).1.hasWeapon).isSome
        ∧ ((handle_state f s).1.numWeapons).isSome
        ∧ ((handle_state f s).1.gameEnded).isSome) := by
  refine ⟨rfl, rfl, rfl, rfl, rfl, fun s => rfl, fun f s => ?_⟩
  simp [handle_state]

/-- C4: a well-formed state frame whose `isDead` or `gameEnded` field is
`true` makes the Receiver loop set the stop signal, request no image,
write no decision, break out of the line loop, and fail the loop guard:
the loop exits. -/
theorem terminal_frame_stops_session
    (ctx : RecvCtx) (st : LoopState) (line : String) (f : StateFrame)
    (hne : pyStrip line ≠ "")
    (hdec : ctx.decode (pyStrip line) = some f)
    (hterm : f.isDead = some true ∨ f.gameEnded = some true) :
    (processLine ctx line st).state.stopEvent = true
    ∧ (processLine ctx line st).imageRequested = false
    ∧ (processLine ctx line st).state.nextCommand = st.nextCommand
    ∧ (processLine ctx line st).broke = true
    ∧ loopContinues (processLine ctx line st).state false = false := by
  have hend : (handle_state f st.shared).2 = true := by
    rcases hterm with h | h <;> simp [handle_state, h]
  simp [processLine, hne, hdec, hend, loopContinues]

/-- C4 witness: the concrete line `{"gameEnded":true}` under the demo
decoder, starting from a fresh session state. -/
theorem terminal_frame_stops_session_witness :
    pyStrip endLine ≠ ""
    ∧ demoCtx.decode (pyStrip endLine) = some endedFrame
    ∧ endedFrame.gameEnded = some true
    ∧ ((processLine demoCtx endLine st0).state.stopEvent = true
      ∧ (processLine demoCtx endLine st0).imageRequested = false
      ∧ (processLine demoCtx endLine st0).state.nextCommand = st0.nextCommand
      ∧ (processLine demoCtx endLine st0).broke = true
      ∧ loopContinues (processLine demoCtx endLine st0).state false = false) :=
  ⟨by decide, by decide, by decide,
   terminal_frame_stops_session demoCtx st0 endLine endedFrame
     (by decide) (by decide) (Or.inr (by decide))⟩

/-- C5: building `left(1.0)` then `jump(0.5)` on a fresh builder and
serializing yields exactly the command frame `LEFT:1.00;JUMP:0.50\n`. -/
theorem left_jump_serialization :
    ((AICommandBuilder.new.left 1).bind
        (fun b => b.jump (mkRat 1 2))).map commandFrame
      = some "LEFT:1.00;JUMP:0.50\n" := by
  decide

/-- C6: a movement amount outside `[0, 1]` fails the builder's assert at
construction time and no token is appended (the call yields no builder at
all); every amount inside `[0, 1]`, the boundaries included, succeeds. -/
theorem movement_amount_validation (b : AICommandBuilder) (a : ℚ) :
    ((a < 0 ∨ 1 < a) →
      b.left a = none ∧ b.right a = none ∧ b.jump a = none)
    ∧ (0 ≤ a → a ≤ 1 →
      (b.left a).isSome ∧ (b.right a).isSome ∧ (b.jump a).isSome) := by
  constructor
  · intro h
    have hno : ¬ (0 ≤ a ∧ a ≤ 1) := by
      rintro ⟨h0, h1⟩
      rcases h with h | h <;> linarith
    simp [AICommandBuilder.left, AICommandBuilder.right,
      AICommandBuilder.jump, hno]
  · intro h0 h1
    simp [AICommandBuilder.left, AICommandBuilder.right,
      AICommandBuilder.jump, h0, h1]

/-- C6 witness: `-0.1` and `1.1` are rejected, `0.0`, `0.5` and `1.0`
are accepted, on a fresh builder. -/
theorem movement_amount_validation_witness :
    (AICommandBuilder.new.left (mkRat (-1) 10) = none
      ∧ AICommandBuilder.new.right (mkRat (-1) 10) = none
      ∧ AICommandBuilder.new.jump (mkRat (-1) 10) = none)
    ∧ (AICommandBuilder.new.left (mkRat 11 10) = none
      ∧ AICommandBuilder.new.right (mkRat 11 10) = none
      ∧ AICommandBuilder.new.jump (mkRat 11 10) = none)
    ∧ ((AICommandBuilder.new.left 0).isSome
      ∧ (AICommandBuilder.new.right 0).isSome
      ∧ (AICommandBuilder.new.jump 0).isSome)
    ∧ ((AICommandBuilder.new.left 1).isSome
      ∧ (AICommandBuilder.new.right 1).isSome
      ∧ (AICommandBuilder.new.jump 1).isSome) :=
  ⟨(movement_amount_validation AICommandBuilder.new (mkRat (-1) 10)).1
      (Or.inl (by decide)),
   (movement_amount_validation AICommandBuilder.new (mkRat 11 10)).1
      (Or.inr (by decide)),
   (movement_amount_validation AICommandBuilder.new 0).2
      (by decide) (by decide),
   (movement_amount_validation AICommandBuilder.new 1).2
      (by decide) (by decide)⟩

/-- C7: a nonblank line that fails to decode (`json.JSONDecodeError`) is
skipped: the snapshot, the stop signal and the pending command are
unchanged, no image is requested, and the line loop does not break — the
session goes on. -/
theorem malformed_line_skipped
    (ctx : RecvCtx) (st : LoopState) (line : String)
    (hne : pyStrip line ≠ "")
    (hdec : ctx.decode (pyStrip line) = none) :
    processLine ctx line st = ⟨st, false, false⟩ := by
  simp [processLine, hne, hdec]

/-- C7 witness: the malformed line `{bad` under a decoder that rejects
everything. -/
theorem malformed_line_skipped_witness :
    pyStrip "\x7bbad" ≠ ""
    ∧ badCtx.decode (pyStrip "\x7bbad") = none
    ∧ processLine badCtx "\x7bbad" st0 = ⟨st0, false, false⟩ :=
  ⟨by decide, by decide,
   malformed_line_skipped badCtx st0 "\x7bbad" (by decide) (by decide)⟩

/-- Helper for C8: the payload read loop of `request_image` returns
`None` whenever the scripted reads deliver fewer than the announced
bytes and then the connection closes (an empty packet) or a read times
out. -/
theorem recvImagePayload_aborts (e : ReadResult)
    (he : e = ReadResult.bytes [] ∨ e = ReadResult.timeout) :
    ∀ (pre : List (List ℕ)) (size : ℕ) (rest : List ReadResult)
      (acc : List ℕ),
      (∀ c ∈ pre, c ≠ []) →
      acc.length + (pre.map List.length).sum < size →
      recvImagePayload (pre.map ReadResult.bytes ++ e :: rest) size acc
        = none := by
  intro pre
  induction pre with
  | nil =>
    intro size rest acc _ hlen
    have hlt : acc.length < size := by simpa using hlen
    rcases he with rfl | rfl <;> simp [recvImagePayload, hlt]
  | cons c cs ih =>
    intro size rest acc hpre hlen
    obtain ⟨hd, tl, rfl⟩ := List.exists_cons_of_ne_nil (hpre c (by simp))
    simp only [List.map_cons, List.sum_cons, List.length_cons] at hlen
    have hlt : acc.length < size := by omega
    simp only [List.map_cons, List.cons_append, recvImagePayload,
      if_pos hlt]
    exact ih size rest (acc ++ hd :: tl)
      (fun x hx => hpre x (by simp [hx]))
      (by simp only [List.length_append, List.length_cons]; omega)

/-- C8: every image-fetch failure is recoverable.  A length-prefix read
of fewer than 4 bytes yields `None`; a timeout yields `None`; a
connection that closes, or a read that times out, before all announced
payload bytes arrived yields `None`; and a Receiver tick whose image
fetch yielded `None` leaves the stop signal and the pending command
unchanged and does not break the loop — the session survives. -/
theorem image_fetch_failure_recoverable :
    (∀ (lb : List ℕ) (rest : List ReadResult), lb.length < 4 →
      request_image (ReadResult.bytes lb :: rest) = none)
    ∧ (∀ rest : List ReadResult,
      request_image (ReadResult.timeout :: rest) = none)
    ∧ (∀ (pre : List (List ℕ)) (size : ℕ) (rest : List ReadResult),
      (∀ c ∈ pre, c ≠ []) →
      (pre.map List.length).sum < size →
      recvImagePayload
          (pre.map ReadResult.bytes ++ ReadResult.bytes [] :: rest)
          size [] = none
      ∧ recvImagePayload
          (pre.map ReadResult.bytes ++ ReadResult.timeout :: rest)
          size [] = none)
    ∧ (∀ (ctx : RecvCtx) (st : LoopState) (line : String) (f : StateFrame),
      ctx.imageResult = none →
      pyStrip line ≠ "" →
      ctx.decode (pyStrip line) = some f →
      (handle_state f st.shared).2 = false →
      (processLine ctx line st).state.stopEvent = st.stopEvent
      ∧ (processLine ctx line st).state.nextCommand = st.nextCommand
      ∧ (processLine ctx line st).broke = false) := by
  refine ⟨fun lb rest h => ?_, fun rest => rfl,
    fun pre size rest hpre hlen => ?_,
    fun ctx st line f himg hne hdec hend => ?_⟩
  · simp [request_image, h]
  · exact ⟨recvImagePayload_aborts _ (Or.inl rfl) pre size rest []
        hpre (by simpa using hlen),
      recvImagePayload_aborts _ (Or.inr rfl) pre size rest []
        hpre (by simpa using hlen)⟩
  · simp [processLine, hne, hdec, hend, himg]

/-- C8 witness: a 3-byte prefix, a timeout, a connection closed after one
of five announced payload bytes, and a Receiver tick without an image,
all at concrete inputs. -/
theorem image_fetch_failure_recoverable_witness :
    request_image [ReadResult.bytes [0, 1, 2]] = none
    ∧ request_image [ReadResult.timeout] = none
    ∧ recvImagePayload
        [ReadResult.bytes [7], ReadResult.bytes []] 5 [] = none
    ∧ ((processLine noImageCtx emptyLine st0).state.stopEvent
        = st0.stopEvent
      ∧ (processLine noImageCtx emptyLine st0).state.nextCommand
        = st0.nextCommand
      ∧ (processLine noImageCtx emptyLine st0).broke = false) :=
  ⟨image_fetch_failure_recoverable.1 [0, 1, 2] [] (by decide),
   image_fetch_failure_recoverable.2.1 [],
   (image_fetch_failure_recoverable.2.2.1 [[7]] 5 []
      (by decide) (by decide)).1,
   image_fetch_failure_recoverable.2.2.2 noImageCtx st0 emptyLine
      StateFrame.empty (by decide) (by decide) (by decide) (by decide)⟩

/-- Helper: a Receiver tick on a nonblank, well-decoded, non-terminal
line whose image fetch succeeded: the snapshot is merged, the stop
signal is untouched, and the decision on the fetched image is written
into the pending-command slot. -/
theorem processLine_normal (ctx : RecvCtx) (st : LoopState) (line : String)
    (f : StateFrame) (img : Image)
    (hne : pyStrip line ≠ "")
    (hdec : ctx.decode (pyStrip line) = some f)
    (hend : (handle_state f st.shared).2 = false)
    (himg : ctx.imageResult = some img) :
    processLine ctx line st =
      ⟨{ shared := (handle_state f st.shared).1, stopEvent := st.stopEvent,
         nextCommand := some (ctx.analyze img) }, true, false⟩ := by
  simp [processLine, hne, hdec, hend, himg]

/-- C9: two Receiver ticks that each write a decision, with no Sender
pass in between, leave the slot holding exactly the second decision (the
first, written by the first tick, was silently replaced), and the next
successful Sender pass transmits exactly that second decision and clears
the slot; the slot is a single `Option`, never holding two values. -/
theorem pending_command_latest_wins
    (ctx₁ ctx₂ : RecvCtx) (st : LoopState) (l₁ l₂ : String)
    (f₁ f₂ : StateFrame) (i₁ i₂ : Image)
    (hne₁ : pyStrip l₁ ≠ "")
    (hdec₁ : ctx₁.decode (pyStrip l₁) = some f₁)
    (hend₁ : (handle_state f₁ st.shared).2 = false)
    (himg₁ : ctx₁.imageResult = some i₁)
    (hne₂ : pyStrip l₂ ≠ "")
    (hdec₂ : ctx₂.decode (pyStrip l₂) = some f₂)
    (hend₂ : (handle_state f₂ (processLine ctx₁ l₁ st).state.shared).2
      = false)
    (himg₂ : ctx₂.imageResult = some i₂) :
    (processLine ctx₁ l₁ st).state.nextCommand = some (ctx₁.analyze i₁)
    ∧ (processLine ctx₂ l₂ (processLine ctx₁ l₁ st).state).state.nextCommand
      = some (ctx₂.analyze i₂)
    ∧ sendIteration true
        (processLine ctx₂ l₂ (processLine ctx₁ l₁ st).state).state
      = ({ (processLine ctx₂ l₂ (processLine ctx₁ l₁ st).state).state with
            nextCommand := none },
         some (ctx₂.analyze i₂)) := by
  have e₁ := processLine_normal ctx₁ st l₁ f₁ i₁ hne₁ hdec₁ hend₁ himg₁
  have e₂ := processLine_normal ctx₂ (processLine ctx₁ l₁ st).state l₂
    f₂ i₂ hne₂ hdec₂ hend₂ himg₂
  refine ⟨by rw [e₁], by rw [e₂], ?_⟩
  rw [e₂]
  simp [sendIteration]

/-- C9 witness: two concrete ticks on the line `{}`, the first deciding
`JUMP:1.00\n`, the second deciding `SHOOT\n`; only `SHOOT\n` is held and
transmitted. -/
theorem pending_command_latest_wins_witness :
    (processLine demoCtx emptyLine st0).state.nextCommand
      = some "JUMP:1.00\n"
    ∧ (processLine ⟨demoDecode, some demoImage, fun _ => "SHOOT\n"⟩
        emptyLine (processLine demoCtx emptyLine st0).state).state.nextCommand
      = some "SHOOT\n"
    ∧ sendIteration true
        (processLine ⟨demoDecode, some demoImage, fun _ => "SHOOT\n"⟩
          emptyLine (processLine demoCtx emptyLine st0).state).state
      = ({ (processLine ⟨demoDecode, some demoImage, fun _ => "SHOOT\n"⟩
            emptyLine (processLine demoCtx emptyLine st0).state).state with
            nextCommand := none },
         some "SHOOT\n") :=
  pending_command_latest_wins demoCtx
    ⟨demoDecode, some demoImage, fun _ => "SHOOT\n"⟩ st0
    emptyLine emptyLine StateFrame.empty StateFrame.empty
    demoImage demoImage
    (by decide) (by decide) (by decide) rfl
    (by decide) (by decide) (by decide) rfl

/-- C10: a line that is empty, or whitespace only, after `strip()` is
skipped before any decoding is attempted — for every decoder whatsoever
the state is unchanged, no image is requested and the loop does not
break. -/
theorem blank_line_skipped
    (ctx : RecvCtx) (st : LoopState) (line : String)
    (hblank : pyStrip line = "") :
    processLine ctx line st = ⟨st, false, false⟩ := by
  simp [processLine, hblank]

/-- C10 witness: the whitespace-only line `"  \t "` under the demo
context. -/
theorem blank_line_skipped_witness :
    pyStrip "  \t " = ""
    ∧ processLine demoCtx "  \t " st0 = ⟨st0, false, false⟩ :=
  ⟨by decide, blank_line_skipped demoCtx st0 "  \t " (by decide)⟩

end AIController
